import Mathlib

/-!
# Verification of the cdp-rs session engine (src/lib.rs)

Shallow embedding of the core of `cdp-rs`, a Chrome DevTools Protocol
client.  The embedding follows `src/lib.rs` revision by revision of
control flow:

* `makeConnection` embeds `CdpClient::make_connection`: the candidate
  loop over resolved socket addresses, the non-blocking upgrade
  handshake with its `Interrupted` resumption loop, and the two
  `unwrap` calls on URL parsing / address resolution (modelled as a
  `panicked` outcome).
* `CdpConnection` carries the `message_id` counter; `send` embeds
  `CdpConnection::send` (capture id, increment, write, correlate).
* `wait_message` / `waitForLoop` / `wait_for` embed the receive path.
  Real time is modelled in discrete ticks, one tick per iteration of
  the busy-poll loop; `Duration::from_secs(300)` becomes the budget
  `defaultTimeout = 300`.
* `dropConnection` embeds `impl Drop for CdpConnection`.

JSON values are modelled by the projection the engine actually
inspects (`Frame`): the result of `m["id"].as_i64()`, presence of the
`result` and `error` fields, and the `method` field when it is a
string.  A Rust panic (a failing `unwrap`) is an explicit outcome
constructor, never a stuck term.
-/

namespace CdpRs

/-- The tungstenite transport error, restricted to the distinctions the
engine makes: `Error::Utf8` (mapped to `InvalidResponse` by
`From<Error> for MessageError`), `Error::ConnectionClosed` and
`Error::AlreadyClosed` (tested by `Drop`), and everything else. -/
inductive TgError
  | utf8
  | connectionClosed
  | alreadyClosed
  | wouldBlock
  | other
deriving DecidableEq, Repr

/-- The projection of a parsed JSON frame that the engine inspects:
`id` is the value of `m["id"].as_i64()` (`none` when the `id` field is
missing or not an integer — indexing a missing key yields `Null`, and
`as_i64` on it yields `None`), `hasResult`/`hasError` record
`m.get("result").is_some()` / `m.get("error").is_some()`, and `method`
is the `method` field when present as a string. -/
structure Frame where
  id : Option Int
  hasResult : Bool
  hasError : Bool
  method : Option String
deriving DecidableEq, Repr

/-- `MessageError` from src/lib.rs.  `networkError` is
`MessageError::NetworkError`, `invalidRequest` is
`MessageError::InvalidRequest(Value)` (the frame it carries),
`invalidResponse` and `noMessage` are the remaining variants. -/
inductive MessageError
  | networkError (e : TgError)
  | invalidRequest (frame : Frame)
  | invalidResponse
  | noMessage
deriving DecidableEq, Repr

/-- `impl From<Error> for MessageError`: `Error::Utf8` becomes
`InvalidResponse`, every other transport error becomes
`NetworkError(e)`. -/
def messageErrorOfTg : TgError → MessageError
  | .utf8 => .invalidResponse
  | .connectionClosed => .networkError .connectionClosed
  | .alreadyClosed => .networkError .alreadyClosed
  | .wouldBlock => .networkError .wouldBlock
  | .other => .networkError .other

/-- One receive attempt on the socket, as observed by `wait_message`:
either `socket.read_message()` fails (any error, including
would-block on the non-blocking socket and a closed connection), or it
yields a message whose `into_text()` fails, or text that is not valid
JSON, or text parsing to a frame. -/
inductive RecvEvent
  | readErr (e : TgError)
  | intoTextErr (e : TgError)
  | badJson
  | frame (v : Frame)
deriving DecidableEq, Repr

/-- `CdpConnection::wait_message`, as a function of one receive
attempt.  `if let Ok(msg) = self.socket.read_message()` sends every
read error to the fall-through `Err(MessageError::NoMessage)`;
`msg.into_text()?` maps its error through `From<Error>`; a JSON parse
failure yields `InvalidResponse`. -/
def wait_message : RecvEvent → Except MessageError Frame
  | .readErr _ => .error .noMessage
  | .intoTextErr e => .error (messageErrorOfTg e)
  | .badJson => .error .invalidResponse
  | .frame v => .ok v

/-- Outcome of a wait loop (or of `send`): a matched frame, a
`MessageError`, or a Rust panic raised while evaluating the
predicate. -/
inductive WaitOutcome
  | ok (v : Frame)
  | err (e : MessageError)
  | panicked
deriving DecidableEq, Repr

/-- The busy-poll loop inside `CdpConnection::wait_for`.  `fuel` is
the remaining time budget in ticks (one tick per iteration of
`while Instant::now() - now < timeout`); `events` is the sequence of
receive outcomes the socket will yield, an exhausted list meaning the
socket keeps reporting nothing available.  The predicate returns
`none` when evaluating it panics.  A `wait_message` error other than
`NoMessage` executes `break`, after which the function returns
`Err(MessageError::NoMessage)`. -/
def waitForLoop (f : Frame → Option Bool) : Nat → List RecvEvent → WaitOutcome
  | 0, _ => .err .noMessage
  | n + 1, [] => waitForLoop f n []
  | n + 1, ev :: rest =>
    match wait_message ev with
    | .ok m =>
      match f m with
      | none => .panicked
      | some true => .ok m
      | some false => waitForLoop f n rest
    | .error .noMessage => waitForLoop f n rest
    | .error _ => .err .noMessage

/-- `Duration::from_secs(300)`, the default budget substituted when
the caller passes `None` as the timeout. -/
def defaultTimeout : Nat := 300

/-- `CdpConnection::wait_for`: substitute the default budget for a
missing timeout, then run the busy-poll loop. -/
def wait_for (timeout : Option Nat) (f : Frame → Option Bool)
    (events : List RecvEvent) : WaitOutcome :=
  waitForLoop f (timeout.getD defaultTimeout) events

/-- The predicate of `CdpConnection::wait_event`: `m.get("method")`
compared against the event name; a frame without a `method` field is
rejected.  This predicate never panics. -/
def eventPredicate (event : String) (m : Frame) : Option Bool :=
  match m.method with
  | some mth => some (decide (mth = event))
  | none => some false

/-- `CdpConnection::wait_event` is `wait_for` with `eventPredicate`. -/
def wait_event (event : String) (timeout : Option Nat)
    (events : List RecvEvent) : WaitOutcome :=
  wait_for timeout (eventPredicate event) events

/-- The mutable state of a `CdpConnection`: the `message_id` counter
(`i64` in the source, modelled as `Int`; the counter only ever grows
by one per send, far from the `i64` range). -/
structure CdpConnection where
  message_id : Int
deriving DecidableEq, Repr

/-- `CdpConnection::new`: the counter starts at 1. -/
def CdpConnection.new : CdpConnection := ⟨1⟩

/-- The correlation predicate of `CdpConnection::send`:
`(m.get("error").is_some() || m.get("result").is_some()) &&
m["id"].as_i64().unwrap() == message_id`.  `&&` short-circuits, so
the `unwrap` is only reached when the frame has a `result` or `error`
field; it panics (`none`) when the frame has no integer `id`. -/
def sendPredicate (message_id : Int) (m : Frame) : Option Bool :=
  if m.hasError || m.hasResult then
    match m.id with
    | some i => some (decide (i = message_id))
    | none => none
  else some false

/-- `CdpConnection::send`.  `writeResult` is the outcome of
`socket.write_message` (`none` = success); `events` is the receive
stream.  The source captures `message_id`, increments the counter,
then writes (`?` propagates a write failure through `From<Error>`,
with the counter already advanced), then drives `wait_for(None, ...)`
with the correlation predicate, and finally converts a matched frame
carrying an `error` field into `Err(InvalidRequest(frame))`. -/
def CdpConnection.send (c : CdpConnection) (writeResult : Option TgError)
    (events : List RecvEvent) : CdpConnection × WaitOutcome :=
  let message_id := c.message_id
  let c' : CdpConnection := ⟨c.message_id + 1⟩
  let outcome : WaitOutcome :=
    match writeResult with
    | some e => .err (messageErrorOfTg e)
    | none =>
      match wait_for none (sendPredicate message_id) events with
      | .ok r => if r.hasError then .err (.invalidRequest r) else .ok r
      | o => o
  (c', outcome)

/-- Runs a sequence of `send` calls on one connection handle,
recording the request id captured by each call (the counter value
before the increment).  Each element of `inputs` supplies that call's
write outcome and receive stream; write failures are sequences with
`some e`. -/
def runSends (c : CdpConnection) :
    List (Option TgError × List RecvEvent) → List Int
  | [] => []
  | (w, ev) :: rest => c.message_id :: runSends (c.send w ev).1 rest

/-! ## Connection establishment (`CdpClient::make_connection`) -/

/-- Final outcome of the upgrade handshake on one candidate once the
`Interrupted` resumption loop stops resuming: `tungstenite::client`
eventually yields `Ok((socket, _))` or `HandshakeError::Failure`. -/
inductive HsFinal
  | success
  | failure
deriving DecidableEq, Repr

/-- One candidate socket address from the resolved (and sorted) list:
whether `TcpStream::connect` succeeds, how many times the non-blocking
handshake reports `HandshakeError::Interrupted` before settling, and
how it settles. -/
structure Candidate where
  connectOk : Bool
  interruptions : Nat
  hsFinal : HsFinal
deriving DecidableEq, Repr

/-- The `loop { match result { ... Interrupted(mid) => result =
mid.handshake() } }` resumption loop: each `Interrupted` re-runs the
handshake on the same mid-handshake state; after `interruptions`
resumptions the final outcome is reached. -/
def handshakeLoop : Nat → HsFinal → HsFinal
  | 0, f => f
  | n + 1, f => handshakeLoop n f

/-- Outcome of `make_connection`: a connection on the candidate at
`idx` (position in the resolved list), `ClientError::CannotConnect`,
or a panic from one of the `unwrap` calls. -/
inductive MCOutcome
  | connected (idx : Nat)
  | cannotConnect
  | panicked
deriving DecidableEq, Repr

/-- The `for addr in addrs` loop of `make_connection`, carrying the
index of the current candidate.  A failed `TcpStream::connect`
(`if let Ok(stream) = ...`) skips to the next candidate; a successful
connect runs the handshake loop: success returns the connection,
`HandshakeError::Failure(_)` executes
`return Err(ClientError::CannotConnect)` — returning from the whole
function, not continuing with the remaining candidates.  Falling off
the end of the list yields `Err(ClientError::CannotConnect)`. -/
def tryCandidates : Nat → List Candidate → MCOutcome
  | _, [] => .cannotConnect
  | i, c :: rest =>
    if c.connectOk then
      match handshakeLoop c.interruptions c.hsFinal with
      | .success => .connected i
      | .failure => .cannotConnect
    else tryCandidates (i + 1) rest

/-- `CdpClient::make_connection`, as a function of the resolution
outcome.  `resolved = none` models `url.socket_addrs(..)` returning
`Err` — the source calls `.unwrap()` on it, which panics.
`resolved = some addrs` is the sorted candidate list (possibly
empty), handed to the `for` loop. -/
def makeConnection (resolved : Option (List Candidate)) : MCOutcome :=
  match resolved with
  | none => .panicked
  | some addrs => tryCandidates 0 addrs

/-! ## Close handshake (`impl Drop for CdpConnection`) -/

/-- What one `read_message` call inside the drop loop observes:
`closed` when it returns `Err(ConnectionClosed)` or
`Err(AlreadyClosed)` (the `matches!` pattern that breaks the loop),
`other` for any other result (a message, a would-block error, ...). -/
inductive DropRead
  | closed
  | other
deriving DecidableEq, Repr

/-- The `for _ in 0..100` drain loop of `Drop::drop`, counting the
iterations it executes.  `reads i` is the outcome of the `i`-th
`read_message` call; the loop breaks on `closed` and otherwise runs
through its fixed budget. -/
def drainIterations (reads : Nat → DropRead) : Nat → Nat → Nat
  | _, 0 => 0
  | i, fuel + 1 =>
    match reads i with
    | .closed => 1
    | .other => 1 + drainIterations reads (i + 1) fuel

/-- `Drop::drop`: if `socket.close(None)` fails the handshake is
abandoned with no drain iterations; otherwise the bounded drain loop
runs.  The result is the number of drain iterations executed — the
function is total, so destruction always completes and never
panics. -/
def dropConnection (closeOk : Bool) (reads : Nat → DropRead) : Nat :=
  if closeOk then drainIterations reads 0 100 else 0

/-! ## Helper lemmas -/

/-- An exhausted receive stream (nothing ever available) makes the
busy-poll loop spin until the budget runs out and report no
message. -/
theorem waitForLoop_nil (f : Frame → Option Bool) :
    ∀ n, waitForLoop f n [] = WaitOutcome.err MessageError.noMessage
  | 0 => rfl
  | n + 1 => waitForLoop_nil f n

/-- A frame the predicate rejects is consumed and the loop continues. -/
theorem waitForLoop_skip (f : Frame → Option Bool) (m : Frame)
    (h : f m = some false) (n : Nat) (rest : List RecvEvent) :
    waitForLoop f (n + 1) (RecvEvent.frame m :: rest) = waitForLoop f n rest := by
  simp only [waitForLoop, wait_message, h]

/-- The correlation predicate rejects (without panicking) every frame
that carries some integer id different from the awaited one. -/
theorem sendPredicate_foreign (q : Int) (m : Frame) (h1 : m.id.isSome)
    (h2 : m.id ≠ some q) : sendPredicate q m = some false := by
  unfold sendPredicate
  rcases hm : m.id with _ | j
  · rw [hm] at h1; simp at h1
  · have hj : ¬ (j = q) := by intro h; exact h2 (by rw [hm, h])
    cases he : m.hasError <;> cases hr : m.hasResult <;>
      simp [hm, hj, decide_eq_false hj]

/-- Frames whose integer id differs from the awaited one are drained
off the stream one per tick, leaving the loop on the rest. -/
theorem waitForLoop_skip_foreigns (q : Int) :
    ∀ (foreigns : List Frame) (n : Nat) (rest : List RecvEvent),
      (∀ m ∈ foreigns, m.id.isSome ∧ m.id ≠ some q) →
      foreigns.length ≤ n →
      waitForLoop (sendPredicate q) n (foreigns.map RecvEvent.frame ++ rest)
        = waitForLoop (sendPredicate q) (n - foreigns.length) rest
  | [], n, rest, _, _ => by simp
  | m :: ms, n, rest, hf, hlen => by
    cases n with
    | zero => simp at hlen
    | succ k =>
      have hm := hf m (List.mem_cons_self m ms)
      simp only [List.map_cons, List.cons_append]
      rw [waitForLoop_skip _ m (sendPredicate_foreign q m hm.1 hm.2) k _,
        waitForLoop_skip_foreigns q ms k rest
          (fun x hx => hf x (List.mem_cons_of_mem _ hx)) (by simpa using hlen)]
      congr 1
      simp only [List.length_cons]
      omega

/-- The number of interruptions does not change how the handshake
settles. -/
theorem handshakeLoop_eq (f : HsFinal) : ∀ n, handshakeLoop n f = f
  | 0 => rfl
  | n + 1 => handshakeLoop_eq f n

/-- Unfolding equation for one step of the candidate loop. -/
theorem tryCandidates_cons (i : Nat) (c : Candidate) (rest : List Candidate) :
    tryCandidates i (c :: rest)
      = if c.connectOk then
          match handshakeLoop c.interruptions c.hsFinal with
          | HsFinal.success => MCOutcome.connected i
          | HsFinal.failure => MCOutcome.cannotConnect
        else tryCandidates (i + 1) rest := rfl

/-- The drop drain loop never exceeds its fuel. -/
theorem drainIterations_le (reads : Nat → DropRead) :
    ∀ fuel i, drainIterations reads i fuel ≤ fuel
  | 0, _ => Nat.le_refl 0
  | fuel + 1, i => by
    unfold drainIterations
    cases reads i
    · simp
    · have := drainIterations_le reads fuel (i + 1)
      simp only []
      omega

/-- When no read ever observes the channel closed, the drain loop
runs through its whole fuel. -/
theorem drainIterations_all_other (reads : Nat → DropRead)
    (h : ∀ i, reads i = DropRead.other) :
    ∀ fuel i, drainIterations reads i fuel = fuel
  | 0, _ => rfl
  | fuel + 1, i => by
    unfold drainIterations
    rw [h i]
    show 1 + drainIterations reads (i + 1) fuel = fuel + 1
    rw [drainIterations_all_other reads h fuel (i + 1)]
    omega

/-- The drain loop stops right after the first read that observes the
channel closed. -/
theorem drainIterations_early_stop (reads : Nat → DropRead) :
    ∀ (k i fuel : Nat), (∀ j, j < k → reads (i + j) = DropRead.other) →
      reads (i + k) = DropRead.closed → k < fuel →
      drainIterations reads i fuel = k + 1
  | 0, i, fuel, _, hc, hlt => by
    obtain ⟨f, rfl⟩ : ∃ f, fuel = f + 1 := ⟨fuel - 1, by omega⟩
    unfold drainIterations
    have hc' : reads i = DropRead.closed := by simpa using hc
    rw [hc']
  | k + 1, i, fuel, ho, hc, hlt => by
    obtain ⟨f, rfl⟩ : ∃ f, fuel = f + 1 := ⟨fuel - 1, by omega⟩
    unfold drainIterations
    have h0 : reads i = DropRead.other := by simpa using ho 0 (by omega)
    rw [h0]
    show 1 + drainIterations reads (i + 1) f = k + 1 + 1
    rw [drainIterations_early_stop reads k (i + 1) f
      (fun j hj => by
        have hj' := ho (j + 1) (by omega)
        have harith : i + (j + 1) = i + 1 + j := by omega
        rwa [harith] at hj')
      (by
        have harith : i + (k + 1) = i + 1 + k := by omega
        rwa [harith] at hc)
      (by omega)]
    omega

/-! ## Claims -/

/-- C1: `send` drives the wait loop with the predicate "frame has an
`id` equal to the captured request id and a `result` or `error`
field"; every response frame carrying a different integer id is
discarded unmatched, so the call returns the frame with the matching
id even when foreign-id frames arrive first. -/
theorem c1_send_correlation :
    (∀ (q : Int) (m : Frame),
        sendPredicate q m = some true ↔
          ((m.hasResult = true ∨ m.hasError = true) ∧ m.id = some q)) ∧
    (∀ (c : CdpConnection) (foreigns : List Frame) (rsp : Frame),
        (∀ m ∈ foreigns, m.id.isSome ∧ m.id ≠ some c.message_id) →
        rsp.id = some c.message_id → rsp.hasResult = true →
        rsp.hasError = false → foreigns.length < defaultTimeout →
        (c.send none (foreigns.map RecvEvent.frame ++ [RecvEvent.frame rsp])).2
          = WaitOutcome.ok rsp) := by
  constructor
  · intro q m
    unfold sendPredicate
    rcases hm : m.id with _ | j <;>
      cases he : m.hasError <;> cases hr : m.hasResult <;>
        simp [hm, he, hr, decide_eq_true_iff]
  · intro c foreigns rsp hf hid hres herr hlen
    have hp : sendPredicate c.message_id rsp = some true := by
      unfold sendPredicate
      rw [herr, hres, hid]
      simp
    have hw : wait_for none (sendPredicate c.message_id)
        (foreigns.map RecvEvent.frame ++ [RecvEvent.frame rsp])
          = WaitOutcome.ok rsp := by
      show waitForLoop (sendPredicate c.message_id) defaultTimeout
        (foreigns.map RecvEvent.frame ++ [RecvEvent.frame rsp]) = _
      rw [waitForLoop_skip_foreigns c.message_id foreigns defaultTimeout
        [RecvEvent.frame rsp] hf (Nat.le_of_lt hlen)]
      obtain ⟨k, hk⟩ : ∃ k, defaultTimeout - foreigns.length = k + 1 :=
        ⟨defaultTimeout - foreigns.length - 1, by omega⟩
      rw [hk]
      simp only [waitForLoop, wait_message, hp]
    simp only [CdpConnection.send, hw, herr]
    rfl

/-- C1 witness: with the counter at 5, one foreign-id frame (id 3)
arriving first is ignored and the id-5 response is returned. -/
theorem c1_send_correlation_witness :
    ((CdpConnection.mk 5).send none
        (([⟨some 3, true, false, none⟩] : List Frame).map RecvEvent.frame
          ++ [RecvEvent.frame ⟨some 5, true, false, none⟩])).2
      = WaitOutcome.ok ⟨some 5, true, false, none⟩ :=
  c1_send_correlation.2 ⟨5⟩ [⟨some 3, true, false, none⟩]
    ⟨some 5, true, false, none⟩ (by decide) rfl rfl rfl (by decide)

/-- C2: the request-id counter starts at 1 and a sequence of `N`
`send` calls from counter value `k` captures exactly the ids
`k, k+1, …, k+N-1`, advancing once per call whether or not the write
succeeds. -/
theorem c2_request_ids :
    CdpConnection.new.message_id = 1 ∧
    ∀ (c : CdpConnection) (inputs : List (Option TgError × List RecvEvent)),
      runSends c inputs
        = (List.range inputs.length).map (fun i : Nat => c.message_id + (i : Int)) := by
  refine ⟨rfl, ?_⟩
  intro c inputs
  induction inputs generalizing c with
  | nil => simp [runSends]
  | cons hd rest ih =>
    obtain ⟨w, ev⟩ := hd
    show c.message_id :: runSends ((c.send w ev).1) rest = _
    have h1 : (c.send w ev).1 = ⟨c.message_id + 1⟩ := rfl
    rw [h1, ih ⟨c.message_id + 1⟩]
    rw [List.length_cons, List.range_succ_eq_map, List.map_cons, List.map_map]
    simp only [Nat.cast_zero, add_zero, List.cons.injEq, true_and]
    refine List.map_congr_left (fun a _ => ?_)
    simp only [Function.comp_apply, Nat.succ_eq_add_one]
    push_cast
    ring

/-- C3 counterexample: a malformed frame makes `wait_for` return
`NoMessage`, not the `InvalidResponse` error that aborted the loop;
and a closed-transport read error does not abort the loop at all —
the loop continues and returns a later frame. -/
theorem c3_counterexample :
    wait_for (some 10) (fun _ => some true) [RecvEvent.badJson]
        = WaitOutcome.err MessageError.noMessage ∧
    wait_for (some 10) (fun _ => some true)
        [RecvEvent.readErr TgError.connectionClosed,
          RecvEvent.frame ⟨none, false, false, none⟩]
      = WaitOutcome.ok ⟨none, false, false, none⟩ := by
  exact ⟨rfl, rfl⟩

/-- C3 amended: a malformed frame (unparseable JSON, or a failed
`into_text`) aborts the wait loop immediately, but the loop's public
result is `NoMessage`, not the aborting error; a transport read
error is reported as `NoMessage` by `wait_message`, so the loop
treats it as "nothing available" and keeps polling. -/
theorem c3_amended :
    (∀ (f : Frame → Option Bool) (n : Nat) (rest : List RecvEvent),
        waitForLoop f (n + 1) (RecvEvent.badJson :: rest)
          = WaitOutcome.err MessageError.noMessage) ∧
    (∀ (f : Frame → Option Bool) (n : Nat) (rest : List RecvEvent) (e : TgError),
        waitForLoop f (n + 1) (RecvEvent.intoTextErr e :: rest)
          = WaitOutcome.err MessageError.noMessage) ∧
    (∀ (e : TgError),
        wait_message (RecvEvent.readErr e) = Except.error MessageError.noMessage) ∧
    (∀ (f : Frame → Option Bool) (n : Nat) (rest : List RecvEvent) (e : TgError),
        waitForLoop f (n + 1) (RecvEvent.readErr e :: rest)
          = waitForLoop f n rest) := by
  refine ⟨?_, ?_, fun e => rfl, ?_⟩
  · intro f n rest
    simp only [waitForLoop, wait_message]
  · intro f n rest e
    cases e <;> simp only [waitForLoop, wait_message, messageErrorOfTg]
  · intro f n rest e
    simp only [waitForLoop, wait_message]

/-- C4 counterexample: a frame carrying a `result` field but no
integer `id` panics send's correlation predicate
(`m["id"].as_i64().unwrap()`), so the send wait loop panics instead
of discarding the frame. -/
theorem c4_counterexample :
    (CdpConnection.new.send none [RecvEvent.frame ⟨none, true, false, none⟩]).2
      = WaitOutcome.panicked := by
  rfl

/-- C4 amended: a frame with no `method`, no `result` and no `error`
field is rejected by both predicates without panicking and is
consumed and discarded by the wait loop; but a frame with a `result`
or `error` field and no integer `id` field panics send's correlation
predicate. -/
theorem c4_amended :
    (∀ (q : Int) (m : Frame), m.hasResult = false → m.hasError = false →
        sendPredicate q m = some false) ∧
    (∀ (event : String) (m : Frame), m.method = none →
        eventPredicate event m = some false) ∧
    (∀ (q : Int) (n : Nat) (rest : List RecvEvent) (m : Frame),
        m.hasResult = false → m.hasError = false →
        waitForLoop (sendPredicate q) (n + 1) (RecvEvent.frame m :: rest)
          = waitForLoop (sendPredicate q) n rest) ∧
    (∀ (q : Int) (m : Frame), m.id = none →
        (m.hasResult = true ∨ m.hasError = true) →
        sendPredicate q m = none) := by
  refine ⟨?_, ?_, ?_, ?_⟩
  · intro q m hr he
    unfold sendPredicate
    rw [he, hr]
    rfl
  · intro ev m hm
    unfold eventPredicate
    rw [hm]
  · intro q n rest m hr he
    refine waitForLoop_skip _ m ?_ n rest
    unfold sendPredicate
    rw [he, hr]
    rfl
  · intro q m hid h
    unfold sendPredicate
    rcases h with h | h <;> rw [hid] <;> simp [h]

/-- C4 witness: concrete instances of the amended statement. -/
theorem c4_amended_witness :
    sendPredicate 1 ⟨none, false, false, none⟩ = some false ∧
    eventPredicate "Network.dataReceived" ⟨none, false, false, none⟩ = some false ∧
    waitForLoop (sendPredicate 1) 1 [RecvEvent.frame ⟨none, false, false, none⟩]
        = waitForLoop (sendPredicate 1) 0 [] ∧
    sendPredicate 1 ⟨none, true, false, none⟩ = none :=
  ⟨c4_amended.1 1 ⟨none, false, false, none⟩ rfl rfl,
    c4_amended.2.1 "Network.dataReceived" ⟨none, false, false, none⟩ rfl,
    c4_amended.2.2.1 1 0 [] ⟨none, false, false, none⟩ rfl rfl,
    c4_amended.2.2.2 1 ⟨none, true, false, none⟩ rfl (Or.inl rfl)⟩

/-- C5 counterexample: with two candidates, a hard handshake failure
on the first returns `CannotConnect` for the whole operation even
though the second candidate would have succeeded — the establisher
does not continue to the next candidate and fails before the list is
exhausted. -/
theorem c5_counterexample :
    makeConnection (some [⟨true, 0, HsFinal.failure⟩, ⟨true, 0, HsFinal.success⟩])
        = MCOutcome.cannotConnect ∧
    makeConnection (some [⟨true, 0, HsFinal.success⟩]) = MCOutcome.connected 0 := by
  exact ⟨rfl, rfl⟩

/-- C5 amended: a refused TCP connection on a candidate abandons only
that candidate and the loop continues with the next one;
`CannotConnect` is returned after all candidates are exhausted when
every candidate fails at the connect step; but a hard handshake
failure (rejected upgrade) aborts the whole operation with
`CannotConnect` immediately, without trying later candidates. -/
theorem c5_amended :
    (∀ (i : Nat) (c : Candidate) (rest : List Candidate), c.connectOk = false →
        tryCandidates i (c :: rest) = tryCandidates (i + 1) rest) ∧
    (∀ (i : Nat) (c : Candidate) (rest : List Candidate),
        c.connectOk = true → c.hsFinal = HsFinal.failure →
        tryCandidates i (c :: rest) = MCOutcome.cannotConnect) ∧
    (∀ addrs : List Candidate, (∀ c ∈ addrs, c.connectOk = false) →
        makeConnection (some addrs) = MCOutcome.cannotConnect) := by
  refine ⟨?_, ?_, ?_⟩
  · intro i c rest h
    rw [tryCandidates_cons]
    simp [h]
  · intro i c rest hc hf
    rw [tryCandidates_cons]
    simp [hc, handshakeLoop_eq, hf]
  · intro addrs h
    show tryCandidates 0 addrs = MCOutcome.cannotConnect
    have key : ∀ (l : List Candidate), (∀ c ∈ l, c.connectOk = false) →
        ∀ i, tryCandidates i l = MCOutcome.cannotConnect := by
      intro l
      induction l with
      | nil => intro _ i; rfl
      | cons hd tl ih =>
        intro hl i
        rw [tryCandidates_cons, hl hd (List.mem_cons_self _ _)]
        simp only [Bool.false_eq_true, if_false]
        exact ih (fun c hc => hl c (List.mem_cons_of_mem _ hc)) (i + 1)
    exact key addrs h 0

/-- C5 witness: concrete instances of the amended statement. -/
theorem c5_amended_witness :
    tryCandidates 0 (⟨false, 0, HsFinal.success⟩ :: [⟨true, 0, HsFinal.success⟩])
        = tryCandidates 1 [⟨true, 0, HsFinal.success⟩] ∧
    tryCandidates 0 (⟨true, 2, HsFinal.failure⟩ :: [⟨true, 0, HsFinal.success⟩])
        = MCOutcome.cannotConnect ∧
    makeConnection (some [⟨false, 0, HsFinal.success⟩, ⟨false, 3, HsFinal.failure⟩])
        = MCOutcome.cannotConnect :=
  ⟨c5_amended.1 0 ⟨false, 0, HsFinal.success⟩ [⟨true, 0, HsFinal.success⟩] rfl,
    c5_amended.2.1 0 ⟨true, 2, HsFinal.failure⟩ [⟨true, 0, HsFinal.success⟩] rfl rfl,
    c5_amended.2.2 [⟨false, 0, HsFinal.success⟩, ⟨false, 3, HsFinal.failure⟩]
      (by decide)⟩

/-- C6 counterexample: when address resolution itself fails, the
source calls `.unwrap()` on the error and panics — the operation does
not return the typed `CannotConnect` failure. -/
theorem c6_counterexample :
    makeConnection none = MCOutcome.panicked ∧
    MCOutcome.panicked ≠ MCOutcome.cannotConnect := by
  exact ⟨rfl, by simp⟩

/-- C6 amended: when resolution succeeds but yields an empty
candidate list, connection establishment returns `CannotConnect`;
when resolution itself fails, the `unwrap` on its result panics
rather than producing a typed failure. -/
theorem c6_amended :
    makeConnection (some []) = MCOutcome.cannotConnect ∧
    makeConnection none = MCOutcome.panicked := by
  exact ⟨rfl, rfl⟩

/-- C7: when send's wait matches a frame carrying an `error` field,
the call fails with `InvalidRequest` (the request-rejected variant)
carrying the full matched frame, a variant distinct from the
transport-failure variant `NetworkError`. -/
theorem c7_request_rejected (c : CdpConnection) (events : List RecvEvent)
    (r : Frame)
    (h : wait_for none (sendPredicate c.message_id) events = WaitOutcome.ok r)
    (herr : r.hasError = true) :
    (c.send none events).2 = WaitOutcome.err (MessageError.invalidRequest r) ∧
    ∀ e, MessageError.invalidRequest r ≠ MessageError.networkError e := by
  constructor
  · simp only [CdpConnection.send, h, herr]
    rfl
  · intro e
    simp

/-- C7 witness: a rejected request on a fresh connection. -/
theorem c7_request_rejected_witness :
    (CdpConnection.new.send none [RecvEvent.frame ⟨some 1, false, true, none⟩]).2
        = WaitOutcome.err (MessageError.invalidRequest ⟨some 1, false, true, none⟩) ∧
    ∀ e, MessageError.invalidRequest ⟨some 1, false, true, none⟩
        ≠ MessageError.networkError e :=
  c7_request_rejected CdpConnection.new
    [RecvEvent.frame ⟨some 1, false, true, none⟩]
    ⟨some 1, false, true, none⟩ rfl rfl

/-- C8: a missing timeout is replaced by the finite default budget of
300 (minutes-scale, not infinite); a zero budget returns `NoMessage`
without any polling; and a wait whose polls never yield anything
returns `NoMessage` once the budget is exhausted. -/
theorem c8_timeout :
    (∀ (f : Frame → Option Bool) (events : List RecvEvent),
        wait_for none f events = waitForLoop f defaultTimeout events) ∧
    defaultTimeout = 300 ∧
    (∀ (f : Frame → Option Bool) (events : List RecvEvent),
        wait_for (some 0) f events = WaitOutcome.err MessageError.noMessage) ∧
    (∀ (t : Nat) (f : Frame → Option Bool) (events : List RecvEvent),
        (∀ e ∈ events, ∃ te, e = RecvEvent.readErr te) →
        wait_for (some t) f events = WaitOutcome.err MessageError.noMessage) := by
  refine ⟨fun f ev => rfl, rfl, fun f ev => rfl, ?_⟩
  intro t f events h
  show waitForLoop f t events = WaitOutcome.err MessageError.noMessage
  induction t generalizing events with
  | zero => rfl
  | succ n ih =>
    cases events with
    | nil => exact waitForLoop_nil f (n + 1)
    | cons e rest =>
      obtain ⟨te, rfl⟩ := h e (List.mem_cons_self _ _)
      simp only [waitForLoop, wait_message]
      exact ih rest (fun x hx => h x (List.mem_cons_of_mem _ hx))

/-- C8 witness: an empty receive stream with a budget of 5 returns
`NoMessage`. -/
theorem c8_timeout_witness :
    wait_for (some 5) (fun _ => some true) []
      = WaitOutcome.err MessageError.noMessage :=
  c8_timeout.2.2.2 5 (fun _ => some true) []
    (fun e he => absurd he (List.not_mem_nil e))

/-- C9: an interrupted handshake is resumed on the same candidate —
resumption is the loop's self-step, the settled outcome is
independent of how many interruptions occur, interruptions never make
the loop move to the next candidate, and a candidate whose handshake
settles successfully connects at its own index no matter how many
interruptions preceded. -/
theorem c9_interrupted_resumes :
    (∀ (n : Nat) (f : HsFinal), handshakeLoop (n + 1) f = handshakeLoop n f) ∧
    (∀ (n : Nat) (f : HsFinal), handshakeLoop n f = f) ∧
    (∀ (i n : Nat) (f : HsFinal) (rest : List Candidate),
        tryCandidates i (⟨true, n + 1, f⟩ :: rest)
          = tryCandidates i (⟨true, n, f⟩ :: rest)) ∧
    (∀ (i n : Nat) (rest : List Candidate),
        tryCandidates i (⟨true, n, HsFinal.success⟩ :: rest)
          = MCOutcome.connected i) := by
  refine ⟨fun n f => rfl, fun n f => handshakeLoop_eq f n, ?_, ?_⟩
  · intro i n f rest
    rw [tryCandidates_cons, tryCandidates_cons]
    simp [handshakeLoop_eq]
  · intro i n rest
    rw [tryCandidates_cons]
    simp [handshakeLoop_eq]

/-- C10: the close handshake never exceeds its 100-iteration drain
budget, performs no draining when the close frame cannot be sent,
runs exactly its budget when the peer never acknowledges, and stops
right after the transport first reports the channel closed. -/
theorem c10_drop_bounded :
    (∀ (ok : Bool) (reads : Nat → DropRead), dropConnection ok reads ≤ 100) ∧
    (∀ reads : Nat → DropRead, dropConnection false reads = 0) ∧
    (∀ reads : Nat → DropRead, (∀ i, reads i = DropRead.other) →
        dropConnection true reads = 100) ∧
    (∀ (reads : Nat → DropRead) (k : Nat),
        (∀ j, j < k → reads j = DropRead.other) → reads k = DropRead.closed →
        k < 100 → dropConnection true reads = k + 1) := by
  refine ⟨?_, fun reads => rfl, ?_, ?_⟩
  · intro ok reads
    cases ok
    · show (0 : Nat) ≤ 100
      omega
    · show drainIterations reads 0 100 ≤ 100
      exact drainIterations_le reads 100 0
  · intro reads h
    show drainIterations reads 0 100 = 100
    exact drainIterations_all_other reads h 100 0
  · intro reads k ho hc hlt
    show drainIterations reads 0 100 = k + 1
    refine drainIterations_early_stop reads k 0 100 ?_ ?_ hlt
    · intro j hj
      rw [Nat.zero_add]
      exact ho j hj
    · rw [Nat.zero_add]
      exact hc

/-- C10 witness: a peer that never acknowledges consumes exactly the
100-iteration budget; a close observed on the fourth read stops the
drain after four iterations. -/
theorem c10_drop_bounded_witness :
    dropConnection true (fun _ => DropRead.other) = 100 ∧
    dropConnection true
        (fun i => if i < 3 then DropRead.other else DropRead.closed) = 3 + 1 :=
  ⟨c10_drop_bounded.2.2.1 (fun _ => DropRead.other) (fun _ => rfl),
    c10_drop_bounded.2.2.2
      (fun i => if i < 3 then DropRead.other else DropRead.closed) 3
      (fun j hj => by simp [hj]) (by simp) (by omega)⟩

end CdpRs
